import Mathlib

/-!
# Crop price forecaster: feature-vector assembly and forecast generation

A shallow embedding of the core logic of `app.py`: feature-vector assembly
against a feature schema, the 12-month forecast loop with its fallback price
generator, asset loading with its hardcoded fallback schema, the schema-derived
option lists, and the comparison-district sampler with its perturbation and
rounding steps.

Conventions of the embedding:
* prices are rationals (the Python floats);
* the opaque trained model is a parameter `predict : List Int → ℚ`
  (`rf_model.predict` on the one-row frame, first entry of the result);
* each call to Python's `random.uniform` is a draw from an oracle passed in as
  a function, constrained by a hypothesis to the interval the call uses;
* `random.sample` is an oracle `List String → Nat → List String` constrained by
  `SampleSpec` (it returns `k` elements picked at distinct positions, in any
  order, whenever `k` is at most the population size);
* `pd.to_datetime (f'{year}-{month}-01')` is the triple `(year, month, 1)`.
-/

/-- One entry of the pandas Series `input_data` built in
`get_monthly_forecast` / `show_prediction_dashboard`: the Series starts
all-zero over the schema index, then `Year`, `Month`, `Day`, `Grade_Encoded`
are assigned, then `District_<district>` and `Commodity_<commodity>` are set
to 1 when present.  Later assignments win, so the tests run in reverse
assignment order. -/
def entryValue (district commodity : String) (year month day grade : Int)
    (c : String) : Int :=
  if c = "Commodity_" ++ commodity then 1
  else if c = "District_" ++ district then 1
  else if c = "Grade_Encoded" then grade
  else if c = "Day" then day
  else if c = "Month" then month
  else if c = "Year" then year
  else 0

/-- The dense feature vector aligned with the schema column order
(`pd.DataFrame([input_data])` row, read back along `ALL_COLUMNS`). -/
def featureVector (cols : List String) (district commodity : String)
    (year month day grade : Int) : List Int :=
  cols.map (entryValue district commodity year month day grade)

/-! ## String facts about the column-name space -/

/-- The characters of the district one-hot naming scheme. -/
theorem districtTag_data :
    "District_".data = ['D', 'i', 's', 't', 'r', 'i', 'c', 't', '_'] := rfl

/-- The characters of the commodity one-hot naming scheme. -/
theorem commodityTag_data :
    "Commodity_".data = ['C', 'o', 'm', 'm', 'o', 'd', 'i', 't', 'y', '_'] := rfl

/-- A district one-hot column name is never a commodity one-hot column name. -/
theorem district_col_ne_commodity_col (d c : String) :
    "District_" ++ d ≠ "Commodity_" ++ c := by
  intro h
  have h2 : ("District_" ++ d).data = ("Commodity_" ++ c).data :=
    congrArg String.data h
  rw [String.data_append, String.data_append, districtTag_data,
    commodityTag_data] at h2
  simp at h2

/-- No numeric field name is a district one-hot column name. -/
theorem numeric_ne_district_col (d : String) :
    "Year" ≠ "District_" ++ d ∧ "Month" ≠ "District_" ++ d ∧
      "Day" ≠ "District_" ++ d ∧ "Grade_Encoded" ≠ "District_" ++ d := by
  refine ⟨?_, ?_, ?_, ?_⟩ <;>
    · intro h
      have h2 := congrArg String.data h
      rw [String.data_append, districtTag_data] at h2
      simp at h2

/-- No numeric field name is a commodity one-hot column name. -/
theorem numeric_ne_commodity_col (c : String) :
    "Year" ≠ "Commodity_" ++ c ∧ "Month" ≠ "Commodity_" ++ c ∧
      "Day" ≠ "Commodity_" ++ c ∧ "Grade_Encoded" ≠ "Commodity_" ++ c := by
  refine ⟨?_, ?_, ?_, ?_⟩ <;>
    · intro h
      have h2 := congrArg String.data h
      rw [String.data_append, commodityTag_data] at h2
      simp at h2

/-- A column carrying the district-group naming scheme is not a commodity
one-hot column, not a numeric field, and its entry is its one-hot value. -/
theorem districtGroup_entry (district commodity : String)
    (year month day grade : Int) (c : String)
    (h : "District_".data <+: c.data) :
    entryValue district commodity year month day grade c =
      if c = "District_" ++ district then 1 else 0 := by
  obtain ⟨t, ht⟩ := h
  have hco : ∀ x : String, c ≠ "Commodity_" ++ x := by
    intro x hx
    rw [hx, String.data_append, commodityTag_data] at ht
    rw [districtTag_data] at ht
    simp at ht
  have hfix : c ≠ "Grade_Encoded" ∧ c ≠ "Day" ∧ c ≠ "Month" ∧ c ≠ "Year" := by
    refine ⟨?_, ?_, ?_, ?_⟩ <;>
      · intro hx
        rw [hx] at ht
        rw [districtTag_data] at ht
        simp at ht
  rw [entryValue, if_neg (hco commodity)]
  by_cases hd : c = "District_" ++ district
  · rw [if_pos hd, if_pos hd]
  · rw [if_neg hd, if_neg hd, if_neg hfix.1, if_neg hfix.2.1,
      if_neg hfix.2.2.1, if_neg hfix.2.2.2]

/-- A column carrying the commodity-group naming scheme is not a district
one-hot column, not a numeric field, and its entry is its one-hot value. -/
theorem commodityGroup_entry (district commodity : String)
    (year month day grade : Int) (c : String)
    (h : "Commodity_".data <+: c.data) :
    entryValue district commodity year month day grade c =
      if c = "Commodity_" ++ commodity then 1 else 0 := by
  obtain ⟨t, ht⟩ := h
  have hdi : ∀ x : String, c ≠ "District_" ++ x := by
    intro x hx
    rw [hx, String.data_append, districtTag_data] at ht
    rw [commodityTag_data] at ht
    simp at ht
  have hfix : c ≠ "Grade_Encoded" ∧ c ≠ "Day" ∧ c ≠ "Month" ∧ c ≠ "Year" := by
    refine ⟨?_, ?_, ?_, ?_⟩ <;>
      · intro hx
        rw [hx] at ht
        rw [commodityTag_data] at ht
        simp at ht
  rw [entryValue]
  by_cases hc : c = "Commodity_" ++ commodity
  · rw [if_pos hc, if_pos hc]
  · rw [if_neg hc, if_neg hc, if_neg (hdi district), if_neg hfix.1,
      if_neg hfix.2.1, if_neg hfix.2.2.1, if_neg hfix.2.2.2]

/-! ## Generic facts about zipping a list with its image -/

/-- Each pair of `l.zip (l.map f)` is `(a, f a)`. -/
theorem zip_map_snd {α β : Type} (f : α → β) (l : List α) :
    ∀ p ∈ l.zip (l.map f), p.2 = f p.1 := by
  induction l with
  | nil => intro p hp; simp at hp
  | cons a l ih =>
    intro p hp
    rcases List.mem_cons.mp hp with hp | hp
    · rw [hp]
    · exact ih p hp

/-- Counting over `l.zip (l.map f)` is counting over `l`. -/
theorem countP_zip_map {α β : Type} (f : α → β) (q : α × β → Bool)
    (l : List α) :
    (l.zip (l.map f)).countP q = l.countP (fun a => q (a, f a)) := by
  induction l with
  | nil => rfl
  | cons a l ih => simp [List.countP_cons, ih]

/-! ## Evaluation of single entries -/

/-- The `Year` entry holds the input year. -/
theorem entryValue_year (district commodity : String)
    (year month day grade : Int) :
    entryValue district commodity year month day grade "Year" = year := by
  rw [entryValue, if_neg (numeric_ne_commodity_col commodity).1,
    if_neg (numeric_ne_district_col district).1, if_neg (by decide),
    if_neg (by decide), if_neg (by decide), if_pos rfl]

/-- The `Month` entry holds the input month. -/
theorem entryValue_month (district commodity : String)
    (year month day grade : Int) :
    entryValue district commodity year month day grade "Month" = month := by
  rw [entryValue, if_neg (numeric_ne_commodity_col commodity).2.1,
    if_neg (numeric_ne_district_col district).2.1, if_neg (by decide),
    if_neg (by decide), if_pos rfl]

/-- The `Day` entry holds the input day. -/
theorem entryValue_day (district commodity : String)
    (year month day grade : Int) :
    entryValue district commodity year month day grade "Day" = day := by
  rw [entryValue, if_neg (numeric_ne_commodity_col commodity).2.2.1,
    if_neg (numeric_ne_district_col district).2.2.1, if_neg (by decide),
    if_pos rfl]

/-- The `Grade_Encoded` entry holds the input grade. -/
theorem entryValue_grade (district commodity : String)
    (year month day grade : Int) :
    entryValue district commodity year month day grade "Grade_Encoded" =
      grade := by
  rw [entryValue, if_neg (numeric_ne_commodity_col commodity).2.2.2,
    if_neg (numeric_ne_district_col district).2.2.2, if_pos rfl]

/-- The selected district's own one-hot column is set to 1. -/
theorem entryValue_district_col (district commodity : String)
    (year month day grade : Int) :
    entryValue district commodity year month day grade
      ("District_" ++ district) = 1 := by
  rw [entryValue, if_neg (district_col_ne_commodity_col district commodity),
    if_pos rfl]

/-- The selected commodity's own one-hot column is set to 1. -/
theorem entryValue_commodity_col (district commodity : String)
    (year month day grade : Int) :
    entryValue district commodity year month day grade
      ("Commodity_" ++ commodity) = 1 := by
  rw [entryValue, if_pos rfl]

/-- Every column other than the four numeric fields and the two selected
one-hot columns keeps its zero. -/
theorem entryValue_other (district commodity : String)
    (year month day grade : Int) (c : String)
    (h1 : c ≠ "Year") (h2 : c ≠ "Month") (h3 : c ≠ "Day")
    (h4 : c ≠ "Grade_Encoded") (h5 : c ≠ "District_" ++ district)
    (h6 : c ≠ "Commodity_" ++ commodity) :
    entryValue district commodity year month day grade c = 0 := by
  rw [entryValue, if_neg h6, if_neg h5, if_neg h4, if_neg h3, if_neg h2,
    if_neg h1]

/-! ## Claim C1: the one-hot structure of the feature vector -/

/-- The hardcoded minimal schema substituted when loading the model or the
feature column list fails (both `except` branches of `load_assets`). -/
def FALLBACK_COLUMNS : List String :=
  ["Year", "Month", "Day", "Grade_Encoded", "District_Pune", "Commodity_Wheat"]

/-- The number of schema positions whose column name begins with the given
one-hot tag and whose feature-vector entry is set to 1. -/
def oneHotFlagCount (tag : List Char) (pairs : List (String × Int)) : Nat :=
  pairs.countP (fun p => decide (tag <+: p.1.data) && (p.2 == 1))

/-- The property claimed of the feature vector: read against the schema
column list, every entry is zero except the numeric fields (set from the
input) and the selected district/commodity one-hot flags (set to 1 exactly
when their column is present in the schema, one flag per group). -/
def FeatureVectorClaim (cols : List String) (district commodity : String)
    (year month day grade : Int) : Prop :=
  (∀ p ∈ cols.zip (featureVector cols district commodity year month day grade),
      (p.1 = "Year" → p.2 = year) ∧
      (p.1 = "Month" → p.2 = month) ∧
      (p.1 = "Day" → p.2 = day) ∧
      (p.1 = "Grade_Encoded" → p.2 = grade) ∧
      (p.1 = "District_" ++ district → p.2 = 1) ∧
      (p.1 = "Commodity_" ++ commodity → p.2 = 1) ∧
      (p.1 ≠ "Year" → p.1 ≠ "Month" → p.1 ≠ "Day" → p.1 ≠ "Grade_Encoded" →
        p.1 ≠ "District_" ++ district → p.1 ≠ "Commodity_" ++ commodity →
        p.2 = 0)) ∧
  oneHotFlagCount "District_".data
      (cols.zip (featureVector cols district commodity year month day grade)) =
    (if "District_" ++ district ∈ cols then 1 else 0) ∧
  oneHotFlagCount "Commodity_".data
      (cols.zip (featureVector cols district commodity year month day grade)) =
    (if "Commodity_" ++ commodity ∈ cols then 1 else 0)

/-- The district-group flags set to 1 are exactly the occurrences of the
selected district's own column. -/
theorem oneHotFlagCount_district (cols : List String)
    (district commodity : String) (year month day grade : Int) :
    oneHotFlagCount "District_".data
        (cols.zip (featureVector cols district commodity year month day grade)) =
      cols.count ("District_" ++ district) := by
  rw [oneHotFlagCount, featureVector, countP_zip_map, List.count]
  apply List.countP_congr
  intro c hc
  by_cases hpre : "District_".data <+: c.data
  · rw [districtGroup_entry district commodity year month day grade c hpre]
    by_cases hd : c = "District_" ++ district
    · simp [hpre, hd]
    · simp [hpre, hd]
  · have hd : c ≠ "District_" ++ district := by
      intro hx
      apply hpre
      rw [hx, String.data_append]
      exact ⟨_, rfl⟩
    simp [hpre, hd]

/-- The commodity-group flags set to 1 are exactly the occurrences of the
selected commodity's own column. -/
theorem oneHotFlagCount_commodity (cols : List String)
    (district commodity : String) (year month day grade : Int) :
    oneHotFlagCount "Commodity_".data
        (cols.zip (featureVector cols district commodity year month day grade)) =
      cols.count ("Commodity_" ++ commodity) := by
  rw [oneHotFlagCount, featureVector, countP_zip_map, List.count]
  apply List.countP_congr
  intro c hc
  by_cases hpre : "Commodity_".data <+: c.data
  · rw [commodityGroup_entry district commodity year month day grade c hpre]
    by_cases hd : c = "Commodity_" ++ commodity
    · simp [hpre, hd]
    · simp [hpre, hd]
  · have hd : c ≠ "Commodity_" ++ commodity := by
      intro hx
      apply hpre
      rw [hx, String.data_append]
      exact ⟨_, rfl⟩
    simp [hpre, hd]

/-- C1: for every valid input tuple, the feature vector built against the
schema column list has all entries zero except the numeric fields `Year`,
`Month`, `Day`, `Grade_Encoded` set from the input and at most one one-hot
flag per categorical group — exactly one flag when the selected value's
column is present in the schema, and none (silently) when it is absent. -/
theorem feature_vector_one_hot (cols : List String)
    (district commodity : String) (year month day grade : Int)
    (hnd : cols.Nodup)
    (hY : "Year" ∈ cols) (hM : "Month" ∈ cols) (hD : "Day" ∈ cols)
    (hG : "Grade_Encoded" ∈ cols)
    (hmonth : 1 ≤ month ∧ month ≤ 12)
    (hgrade : grade = 1 ∨ grade = 2 ∨ grade = 3) :
    FeatureVectorClaim cols district commodity year month day grade := by
  refine ⟨?_, ?_, ?_⟩
  · intro p hp
    rw [featureVector] at hp
    have h2 := zip_map_snd (entryValue district commodity year month day grade)
      cols p hp
    refine ⟨?_, ?_, ?_, ?_, ?_, ?_, ?_⟩
    · intro h1; rw [h2, h1, entryValue_year]
    · intro h1; rw [h2, h1, entryValue_month]
    · intro h1; rw [h2, h1, entryValue_day]
    · intro h1; rw [h2, h1, entryValue_grade]
    · intro h1; rw [h2, h1, entryValue_district_col]
    · intro h1; rw [h2, h1, entryValue_commodity_col]
    · intro h1 hb h3 h4 h5 h6
      rw [h2]
      exact entryValue_other district commodity year month day grade p.1
        h1 hb h3 h4 h5 h6
  · rw [oneHotFlagCount_district]
    by_cases hmem : "District_" ++ district ∈ cols
    · rw [if_pos hmem]
      exact List.count_eq_one_of_mem hnd hmem
    · rw [if_neg hmem]
      exact List.count_eq_zero.mpr hmem
  · rw [oneHotFlagCount_commodity]
    by_cases hmem : "Commodity_" ++ commodity ∈ cols
    · rw [if_pos hmem]
      exact List.count_eq_one_of_mem hnd hmem
    · rw [if_neg hmem]
      exact List.count_eq_zero.mpr hmem

/-- Witness for C1: the fallback schema with district `Pune`, commodity
`Wheat`, year 2025, month 1, day 1, grade 3. -/
theorem feature_vector_one_hot_witness :
    FeatureVectorClaim FALLBACK_COLUMNS "Pune" "Wheat" 2025 1 1 3 :=
  feature_vector_one_hot FALLBACK_COLUMNS "Pune" "Wheat" 2025 1 1 3
    (by decide) (by decide) (by decide) (by decide) (by decide)
    (by decide) (by decide)

/-! ## The monthly forecast generator -/

/-- One row of a forecast frame: `Month`, `Price`, `Date` (as the triple
year / month / day produced by `pd.to_datetime (f'{year}-{month}-01')`),
`District`. -/
structure PredRecord where
  month : Nat
  price : ℚ
  date : Int × Nat × Nat
  district : String
deriving DecidableEq

/-- The dummy frame built when the model failed to load: months `range(1, 13)`,
prices `random.uniform(3000, 5000) + i * 50`, dates `year-month-01`, the
district column constant.  `rng i` is the i-th `random.uniform(3000, 5000)`
draw of the list comprehension. -/
def fallbackForecast (rng : Nat → ℚ) (district : String) (year : Int) :
    List PredRecord :=
  (List.range 12).map (fun i =>
    { month := i + 1
      price := rng i + (i : ℚ) * 50
      date := (year, i + 1, 1)
      district := district })

/-- The model-mode loop of `get_monthly_forecast`: for each month 1..12 the
feature vector is built with day fixed to 1 and fed to the model. -/
def modelForecast (predict : List Int → ℚ) (cols : List String)
    (district commodity : String) (year grade : Int) : List PredRecord :=
  (List.range 12).map (fun i =>
    { month := i + 1
      price := predict
        (featureVector cols district commodity year ((i : Int) + 1) 1 grade)
      date := (year, i + 1, 1)
      district := district })

/-- `get_monthly_forecast`: the dummy frame when no model is loaded
(`if not rf_model`), the model-mode loop otherwise. -/
def get_monthly_forecast (model : Option (List Int → ℚ)) (rng : Nat → ℚ)
    (cols : List String) (district commodity : String) (year grade : Int) :
    List PredRecord :=
  match model with
  | none => fallbackForecast rng district year
  | some predict => modelForecast predict cols district commodity year grade

/-- The well-formedness claimed of a 12-month forecast: exactly 12 records,
month fields forming the ordered sequence 1..12, each date equal to
`year-month-01`, each record tagged with the input district. -/
def ForecastShape (fc : List PredRecord) (district : String) (year : Int) :
    Prop :=
  fc.length = 12 ∧
  fc.map (fun r => r.month) = [1, 2, 3, 4, 5, 6, 7, 8, 9, 10, 11, 12] ∧
  ∀ r ∈ fc, r.date = (year, r.month, 1) ∧ r.district = district

/-- The fallback frame is well-formed. -/
theorem fallbackForecast_shape (rng : Nat → ℚ) (district : String)
    (year : Int) :
    ForecastShape (fallbackForecast rng district year) district year := by
  refine ⟨rfl, rfl, ?_⟩
  intro r hr
  rw [fallbackForecast] at hr
  simp only [List.mem_map, List.mem_range] at hr
  obtain ⟨i, hi, hr⟩ := hr
  subst hr
  exact ⟨rfl, rfl⟩

/-- The model-mode frame is well-formed. -/
theorem modelForecast_shape (predict : List Int → ℚ) (cols : List String)
    (district commodity : String) (year grade : Int) :
    ForecastShape (modelForecast predict cols district commodity year grade)
      district year := by
  refine ⟨rfl, rfl, ?_⟩
  intro r hr
  rw [modelForecast] at hr
  simp only [List.mem_map, List.mem_range] at hr
  obtain ⟨i, hi, hr⟩ := hr
  subst hr
  exact ⟨rfl, rfl⟩

/-- Each model-mode price comes from the feature vector for the record's own
month with day fixed to 1. -/
theorem modelForecast_price (predict : List Int → ℚ) (cols : List String)
    (district commodity : String) (year grade : Int) :
    ∀ r ∈ modelForecast predict cols district commodity year grade,
      r.price = predict
        (featureVector cols district commodity year (r.month : Int) 1 grade) := by
  intro r hr
  rw [modelForecast] at hr
  simp only [List.mem_map, List.mem_range] at hr
  obtain ⟨i, hi, hr⟩ := hr
  subst hr
  simp

/-- The property claimed of the monthly forecast generator: a well-formed
12-record frame in either mode, and in model mode each price produced from
the feature vector for the record's month with day fixed to 1. -/
def MonthlyForecastClaim (model : Option (List Int → ℚ)) (rng : Nat → ℚ)
    (cols : List String) (district commodity : String) (year grade : Int) :
    Prop :=
  ForecastShape (get_monthly_forecast model rng cols district commodity year
    grade) district year ∧
  ∀ predict, model = some predict →
    ∀ r ∈ get_monthly_forecast model rng cols district commodity year grade,
      r.price = predict
        (featureVector cols district commodity year (r.month : Int) 1 grade)

/-- C2: for every input, the monthly forecast generator returns exactly 12
records with month fields 1..12 ascending, each built with day fixed to 1,
each dated `year-month-01`, each tagged with the input district. -/
theorem monthly_forecast_twelve_records (model : Option (List Int → ℚ))
    (rng : Nat → ℚ) (cols : List String) (district commodity : String)
    (year grade : Int) :
    MonthlyForecastClaim model rng cols district commodity year grade := by
  cases model with
  | none =>
    refine ⟨fallbackForecast_shape rng district year, ?_⟩
    intro predict h
    exact absurd h (by simp)
  | some predict =>
    refine ⟨modelForecast_shape predict cols district commodity year grade, ?_⟩
    intro q hq
    rw [Option.some.injEq] at hq
    subst hq
    exact modelForecast_price _ cols district commodity year grade

/-- C5: in model mode the forecast generator is a pure function of
(district, commodity, year, grade) and the loaded model: it does not read
the random stream at all, so two calls with identical inputs and identical
model state produce identical prices. -/
theorem model_mode_deterministic (predict : List Int → ℚ)
    (rng rng' : Nat → ℚ) (cols : List String) (district commodity : String)
    (year grade : Int) :
    get_monthly_forecast (some predict) rng cols district commodity year
        grade =
      get_monthly_forecast (some predict) rng' cols district commodity year
        grade := rfl

/-! ## Claim C8: structure of the fallback prices -/

/-- The drift component added to the i-th synthetic monthly price
(`+ i * 50` in the fallback list comprehension). -/
def fallbackDrift (i : Nat) : ℚ := (i : ℚ) * 50

/-- The property claimed of the fallback prices: each one is a base value in
the fixed range [3000, 5000] plus the drift for its month, and the drift
grows monotonically with the month across the series. -/
def FallbackPriceClaim (rng : Nat → ℚ) (cols : List String)
    (district commodity : String) (year grade : Int) : Prop :=
  (∀ r ∈ get_monthly_forecast none rng cols district commodity year grade,
    ∃ base : ℚ, 3000 ≤ base ∧ base ≤ 5000 ∧
      r.price = base + fallbackDrift (r.month - 1)) ∧
  (∀ r ∈ get_monthly_forecast none rng cols district commodity year grade,
    ∀ s ∈ get_monthly_forecast none rng cols district commodity year grade,
      r.month ≤ s.month →
        fallbackDrift (r.month - 1) ≤ fallbackDrift (s.month - 1))

/-- C8: with no model, each of the 12 synthetic monthly prices is a base
value drawn from the fixed range [3000, 5000] plus a per-month drift that
grows monotonically with the month. -/
theorem fallback_price_structure (rng : Nat → ℚ) (cols : List String)
    (district commodity : String) (year grade : Int)
    (hr : ∀ i, 3000 ≤ rng i ∧ rng i ≤ 5000) :
    FallbackPriceClaim rng cols district commodity year grade := by
  constructor
  · intro r hr2
    rw [get_monthly_forecast, fallbackForecast] at hr2
    simp only [List.mem_map, List.mem_range] at hr2
    obtain ⟨i, hi, hr2⟩ := hr2
    subst hr2
    refine ⟨rng i, (hr i).1, (hr i).2, ?_⟩
    simp [fallbackDrift]
  · intro r hr2 s hs2 hm
    rw [fallbackDrift, fallbackDrift]
    have : ((r.month - 1 : Nat) : ℚ) ≤ ((s.month - 1 : Nat) : ℚ) := by
      exact_mod_cast Nat.sub_le_sub_right hm 1
    linarith

/-- Witness for C8: the constant draw 4000. -/
theorem fallback_price_structure_witness :
    FallbackPriceClaim (fun _ => 4000) FALLBACK_COLUMNS "Pune" "Wheat"
      2025 3 :=
  fallback_price_structure (fun _ => 4000) FALLBACK_COLUMNS "Pune" "Wheat"
    2025 3 (fun _ => by norm_num)

/-! ## Asset loading and the schema-derived option lists -/

/-- `load_assets`: when the artifact pair (model, feature column list) loads
it is returned as-is; a missing file or any other exception is caught locally
(`except FileNotFoundError` / `except Exception`) and replaced by no model
together with the hardcoded minimal schema. -/
def load_assets (artifact : Option ((List Int → ℚ) × List String)) :
    Option (List Int → ℚ) × List String :=
  match artifact with
  | some a => (some a.1, a.2)
  | none => (none, FALLBACK_COLUMNS)

/-- Python `s.startswith(pre)` on character lists. -/
def startsWithChars : List Char → List Char → Bool
  | [], _ => true
  | _ :: _, [] => false
  | p :: ps, c :: cs => p == c && startsWithChars ps cs

/-- The characters up to (excluding) the next occurrence of the tag. -/
def upToNextTag (sep : List Char) : List Char → List Char
  | [] => []
  | c :: cs =>
    if startsWithChars sep (c :: cs) then [] else c :: upToNextTag sep cs

/-- Python `col.split(tag)[1]` for a column that passed the `startswith tag`
filter: the text after the leading tag, stopping at any further occurrence
of the tag (Python `split` cuts at every occurrence). -/
def afterTag (sep : List Char) (s : List Char) : List Char :=
  upToNextTag sep (s.drop sep.length)

/-- `raw_districts`: the district values recovered from the schema by the
one-hot naming convention (`col.split('District_')[1]` over the columns with
`col.startswith('District_')`). -/
def raw_districts (cols : List String) : List String :=
  (cols.filter (fun c => startsWithChars "District_".data c.data)).map
    (fun c => String.mk (afterTag "District_".data c.data))

/-- `raw_commodities`: the commodity values recovered from the schema. -/
def raw_commodities (cols : List String) : List String :=
  (cols.filter (fun c => startsWithChars "Commodity_".data c.data)).map
    (fun c => String.mk (afterTag "Commodity_".data c.data))

/-- Python string comparison: lexicographic on code points. -/
def charListLe : List Char → List Char → Bool
  | [], _ => true
  | _ :: _, [] => false
  | a :: as, b :: bs =>
    if a < b then true else if b < a then false else charListLe as bs

/-- Insertion step of `sorted(...)`. -/
def insertSorted (a : String) : List String → List String
  | [] => [a]
  | b :: bs =>
    if charListLe a.data b.data then a :: b :: bs else b :: insertSorted a bs

/-- Python `sorted(...)` on strings (insertion sort; the order produced is
what matters, not the algorithm). -/
def sortStrings : List String → List String
  | [] => []
  | a :: as => insertSorted a (sortStrings as)

/-- `DISTRICT_OPTIONS`: the sentinel placeholder followed by the sorted
district values. -/
def DISTRICT_OPTIONS (cols : List String) : List String :=
  "Select District..." :: sortStrings (raw_districts cols)

/-- `COMMODITY_OPTIONS`: the sentinel placeholder followed by the sorted
commodity values. -/
def COMMODITY_OPTIONS (cols : List String) : List String :=
  "Select Commodity..." :: sortStrings (raw_commodities cols)

/-- The property claimed of a failed load: fallback mode (no model) with the
hardcoded minimal schema, schema-derived option lists still non-empty, and
the monthly forecast still 12 well-formed records for every input. -/
def FallbackModeClaim : Prop :=
  (load_assets none).1 = none ∧
  (load_assets none).2 = FALLBACK_COLUMNS ∧
  raw_districts (load_assets none).2 = ["Pune"] ∧
  raw_commodities (load_assets none).2 = ["Wheat"] ∧
  DISTRICT_OPTIONS (load_assets none).2 ≠ [] ∧
  COMMODITY_OPTIONS (load_assets none).2 ≠ [] ∧
  ∀ rng district commodity year grade,
    ForecastShape
      (get_monthly_forecast (load_assets none).1 rng (load_assets none).2
        district commodity year grade) district year

/-- C3: a failed model/schema load is absorbed locally: the process enters
fallback mode with the hardcoded minimal schema, the derived district and
commodity option lists are still non-empty, and the monthly forecast routine
still returns 12 well-formed records. -/
theorem load_failure_fallback : FallbackModeClaim := by
  refine ⟨rfl, rfl, by decide, by decide, by decide, by decide, ?_⟩
  intro rng district commodity year grade
  exact fallbackForecast_shape rng district year

/-! ## The comparison sampler -/

/-- The contract of Python `random.sample(population, k)` for `k` at most
the population size: it returns `k` elements picked at distinct positions,
in any order (a permutation of a sublist of the population). -/
def SampleSpec (sample : List String → Nat → List String) : Prop :=
  ∀ pop k, k ≤ pop.length →
    (sample pop k).length = k ∧ List.Subperm (sample pop k) pop

/-- `random.sample` replaced by taking the first `k` elements: one concrete
sampler satisfying `SampleSpec`. -/
theorem takeSampleSpec : SampleSpec (fun pop k => pop.take k) := by
  intro pop k hk
  constructor
  · rw [List.length_take]
    omega
  · exact (List.take_sublist k pop).subperm

/-- The district list charted by `get_comparison_data`: up to 2 random
districts other than the main one (`min(2, len(other_districts))` of them),
with the main district appended. -/
def comp_districts (sample : List String → Nat → List String)
    (main_district : String) (all_districts : List String) : List String :=
  let other_districts := all_districts.filter (fun d => d ≠ main_district)
  sample other_districts (min 2 other_districts.length) ++ [main_district]

/-- The property claimed of the charted district list: the main district
appears exactly once, at most 2 further districts all distinct, and exactly
as many alternates as are available up to 2 (0, 1 or 2 — short lists are
fine). -/
def ComparisonDistrictsClaim (sample : List String → Nat → List String)
    (main_district : String) (all_districts : List String) : Prop :=
  (comp_districts sample main_district all_districts).count main_district
      = 1 ∧
  ((comp_districts sample main_district all_districts).filter
      (fun d => d ≠ main_district)).length ≤ 2 ∧
  (comp_districts sample main_district all_districts).Nodup ∧
  ((comp_districts sample main_district all_districts).filter
      (fun d => d ≠ main_district)).length =
    min 2 ((all_districts.filter (fun d => d ≠ main_district)).length)

/-- C4: the comparison sampler's district list contains the main district
exactly once plus at most 2 distinct other districts, taking however many
alternates are available without ever failing on a short list. -/
theorem comparison_districts_sound (sample : List String → Nat → List String)
    (hs : SampleSpec sample) (main_district : String)
    (all_districts : List String) (hnd : all_districts.Nodup) :
    ComparisonDistrictsClaim sample main_district all_districts := by
  obtain ⟨hlen, hsub⟩ :=
    hs (all_districts.filter (fun d => d ≠ main_district))
      (min 2 (all_districts.filter (fun d => d ≠ main_district)).length)
      (min_le_right _ _)
  have hmem : ∀ d ∈ sample (all_districts.filter (fun d => d ≠ main_district))
      (min 2 (all_districts.filter (fun d => d ≠ main_district)).length),
      d ≠ main_district := by
    intro d hd
    have := hsub.subset hd
    simp only [List.mem_filter, decide_eq_true_eq] at this
    exact this.2
  have hnds : (sample (all_districts.filter (fun d => d ≠ main_district))
      (min 2 (all_districts.filter (fun d => d ≠ main_district)).length)).Nodup := by
    obtain ⟨l, hperm, hsubl⟩ := hsub
    exact hperm.nodup_iff.mp (hsubl.nodup (hnd.filter _))
  refine ⟨?_, ?_, ?_, ?_⟩
  · rw [comp_districts, List.count_append]
    have h0 : (sample (all_districts.filter (fun d => d ≠ main_district))
        (min 2 (all_districts.filter (fun d => d ≠ main_district)).length)).count
          main_district = 0 := by
      rw [List.count_eq_zero]
      intro hmain
      exact hmem main_district hmain rfl
    rw [h0]
    simp
  · rw [comp_districts, List.filter_append]
    have h1 : List.filter (fun d => d ≠ main_district) [main_district] = [] := by
      simp
    rw [h1, List.append_nil,
      List.filter_eq_self.mpr (fun a ha => by simpa using hmem a ha), hlen]
    exact min_le_left _ _
  · rw [comp_districts, List.nodup_append]
    refine ⟨hnds, List.nodup_singleton main_district, ?_⟩
    intro a ha hb
    rw [List.mem_singleton] at hb
    exact hmem a ha hb
  · rw [comp_districts, List.filter_append]
    have h1 : List.filter (fun d => d ≠ main_district) [main_district] = [] := by
      simp
    rw [h1, List.append_nil,
      List.filter_eq_self.mpr (fun a ha => by simpa using hmem a ha), hlen]

/-- Witness for C4: the one-district scenario `all_districts = ["Pune"]`,
`main_district = "Pune"` with the take-first sampler. -/
theorem comparison_districts_sound_witness :
    ComparisonDistrictsClaim (fun pop k => pop.take k) "Pune" ["Pune"] :=
  comparison_districts_sound (fun pop k => pop.take k) takeSampleSpec
    "Pune" ["Pune"] (by decide)

/-- `df['Price'].iloc[0]`: the first price cell of a frame.  The frames this
is applied to always have 12 rows; the empty case is a defensive default of
the embedding only. -/
def firstPrice : List PredRecord → ℚ
  | [] => 0
  | r :: _ => r.price

/-- The rows one district of `comp_districts` contributes: the main district
reuses the supplied base forecast; another district gets its own 12-month
forecast, shifted by a single `random.uniform(-100, 100)` draw when the model
is loaded and its first-month price equals the base frame's first-month
price; in either case the `District` column is then overwritten with the
district. -/
def district_block (model : Option (List Int → ℚ))
    (forecastRng : String → Nat → ℚ) (perturbDraw : String → ℚ)
    (cols : List String) (commodity : String) (year grade : Int)
    (main_district : String) (base_forecast : List PredRecord)
    (district : String) : List PredRecord :=
  if district = main_district then
    base_forecast.map (fun r => { r with district := district })
  else
    (if model.isSome ∧
        firstPrice (get_monthly_forecast model (forecastRng district) cols
          district commodity year grade) = firstPrice base_forecast then
      (get_monthly_forecast model (forecastRng district) cols district
        commodity year grade).map
        (fun r => { r with price := r.price + perturbDraw district })
    else
      get_monthly_forecast model (forecastRng district) cols district
        commodity year grade).map
      (fun r => { r with district := district })

/-- The concatenated comparison frame before the final rounding
(`pd.concat(comparison_data)`). -/
def comparison_unrounded (model : Option (List Int → ℚ))
    (sample : List String → Nat → List String)
    (forecastRng : String → Nat → ℚ) (perturbDraw : String → ℚ)
    (cols : List String) (commodity : String) (year grade : Int)
    (main_district : String) (all_districts : List String)
    (base_forecast : List PredRecord) : List PredRecord :=
  ((comp_districts sample main_district all_districts).map
    (district_block model forecastRng perturbDraw cols commodity year grade
      main_district base_forecast)).flatten

/-- Rounding to the nearest integer, ties to even
(`Series.round(0).astype(int)`; pandas rounds half to even). -/
def roundHalfEven (q : ℚ) : ℤ :=
  if Int.fract q < 1 / 2 then ⌊q⌋
  else if 1 / 2 < Int.fract q then ⌊q⌋ + 1
  else if 2 ∣ ⌊q⌋ then ⌊q⌋ else ⌊q⌋ + 1

/-- `get_comparison_data`: the concatenated comparison frame with every
price rounded to a whole currency unit. -/
def get_comparison_data (model : Option (List Int → ℚ))
    (sample : List String → Nat → List String)
    (forecastRng : String → Nat → ℚ) (perturbDraw : String → ℚ)
    (cols : List String) (commodity : String) (year grade : Int)
    (main_district : String) (all_districts : List String)
    (base_forecast : List PredRecord) : List PredRecord :=
  (comparison_unrounded model sample forecastRng perturbDraw cols commodity
    year grade main_district all_districts base_forecast).map
    (fun r => { r with price := (roundHalfEven r.price : ℚ) })

/-- Every monthly forecast has 12 rows. -/
theorem get_monthly_forecast_length (model : Option (List Int → ℚ))
    (rng : Nat → ℚ) (cols : List String) (district commodity : String)
    (year grade : Int) :
    (get_monthly_forecast model rng cols district commodity year grade).length
      = 12 := by
  cases model <;> rfl

/-- Every district block has 12 rows when the base forecast does. -/
theorem district_block_length (model : Option (List Int → ℚ))
    (forecastRng : String → Nat → ℚ) (perturbDraw : String → ℚ)
    (cols : List String) (commodity : String) (year grade : Int)
    (main_district : String) (base_forecast : List PredRecord)
    (hbase : base_forecast.length = 12) (district : String) :
    (district_block model forecastRng perturbDraw cols commodity year grade
      main_district base_forecast district).length = 12 := by
  rw [district_block]
  by_cases hd : district = main_district
  · rw [if_pos hd, List.length_map]
    exact hbase
  · rw [if_neg hd]
    by_cases hp : model.isSome ∧
        firstPrice (get_monthly_forecast model (forecastRng district) cols
          district commodity year grade) = firstPrice base_forecast
    · rw [if_pos hp, List.length_map, List.length_map]
      exact get_monthly_forecast_length model (forecastRng district) cols
        district commodity year grade
    · rw [if_neg hp, List.length_map]
      exact get_monthly_forecast_length model (forecastRng district) cols
        district commodity year grade

/-- Half-even rounding lands on an integer within half a unit of its
argument: it rounds to the nearest whole value. -/
theorem roundHalfEven_near (q : ℚ) :
    |((roundHalfEven q : ℤ) : ℚ) - q| ≤ 1 / 2 := by
  have h0 := Int.fract_nonneg q
  have h1 := Int.fract_lt_one q
  have hf : (⌊q⌋ : ℚ) = q - Int.fract q := by rw [Int.fract]; ring
  rw [roundHalfEven]
  split_ifs with ha hb hc
  · rw [abs_le]
    constructor <;> · rw [hf]; linarith
  · rw [abs_le]
    constructor <;> · push_cast; rw [hf]; linarith
  · have ha2 := not_lt.mp ha
    have hb2 := not_lt.mp hb
    rw [abs_le]
    constructor <;> · rw [hf]; linarith
  · have ha2 := not_lt.mp ha
    have hb2 := not_lt.mp hb
    rw [abs_le]
    constructor <;> · push_cast; rw [hf]; linarith

/-- The concatenation of the district blocks has 12 rows per district. -/
theorem blocks_flatten_length (model : Option (List Int → ℚ))
    (forecastRng : String → Nat → ℚ) (perturbDraw : String → ℚ)
    (cols : List String) (commodity : String) (year grade : Int)
    (main_district : String) (base_forecast : List PredRecord)
    (hbase : base_forecast.length = 12) (ds : List String) :
    ((ds.map (district_block model forecastRng perturbDraw cols commodity
      year grade main_district base_forecast)).flatten).length =
      ds.length * 12 := by
  induction ds with
  | nil => rfl
  | cons d ds ih =>
    rw [List.map_cons, List.flatten_cons, List.length_append, ih,
      district_block_length model forecastRng perturbDraw cols commodity year
        grade main_district base_forecast hbase d, List.length_cons]
    ring

/-- The property claimed of the comparison bundle: it is the concatenation
of the selected districts' 12-record sequences (one block of 12 rows per
selected district) with every price rounded — an integer within half a
currency unit of the unrounded price. -/
def RoundedBundleClaim (model : Option (List Int → ℚ))
    (sample : List String → Nat → List String)
    (forecastRng : String → Nat → ℚ) (perturbDraw : String → ℚ)
    (cols : List String) (commodity : String) (year grade : Int)
    (main_district : String) (all_districts : List String)
    (base_forecast : List PredRecord) : Prop :=
  get_comparison_data model sample forecastRng perturbDraw cols commodity
      year grade main_district all_districts base_forecast =
    (comparison_unrounded model sample forecastRng perturbDraw cols commodity
      year grade main_district all_districts base_forecast).map
      (fun r => { r with price := ((roundHalfEven r.price : ℤ) : ℚ) }) ∧
  (∀ r ∈ get_comparison_data model sample forecastRng perturbDraw cols
      commodity year grade main_district all_districts base_forecast,
    ∃ z : ℤ, r.price = (z : ℚ)) ∧
  (∀ r ∈ comparison_unrounded model sample forecastRng perturbDraw cols
      commodity year grade main_district all_districts base_forecast,
    |((roundHalfEven r.price : ℤ) : ℚ) - r.price| ≤ 1 / 2) ∧
  (get_comparison_data model sample forecastRng perturbDraw cols commodity
      year grade main_district all_districts base_forecast).length =
    (min 2 ((all_districts.filter (fun d => d ≠ main_district)).length) + 1)
      * 12

/-- C7: the comparison sampler concatenates all selected districts'
12-record sequences into one collection and rounds every price in it to the
nearest whole currency unit before returning. -/
theorem comparison_bundle_rounded (model : Option (List Int → ℚ))
    (sample : List String → Nat → List String)
    (forecastRng : String → Nat → ℚ) (perturbDraw : String → ℚ)
    (cols : List String) (commodity : String) (year grade : Int)
    (main_district : String) (all_districts : List String)
    (base_forecast : List PredRecord) (hs : SampleSpec sample)
    (hbase : base_forecast.length = 12) :
    RoundedBundleClaim model sample forecastRng perturbDraw cols commodity
      year grade main_district all_districts base_forecast := by
  refine ⟨rfl, ?_, ?_, ?_⟩
  · intro r hr
    rw [get_comparison_data] at hr
    obtain ⟨s, hs2, hrs⟩ := List.mem_map.mp hr
    exact ⟨roundHalfEven s.price, by rw [← hrs]⟩
  · intro r hr
    exact roundHalfEven_near r.price
  · rw [get_comparison_data, List.length_map, comparison_unrounded,
      blocks_flatten_length model forecastRng perturbDraw cols commodity year
        grade main_district base_forecast hbase, comp_districts]
    obtain ⟨hlen, hsub⟩ :=
      hs (all_districts.filter (fun d => d ≠ main_district))
        (min 2 (all_districts.filter (fun d => d ≠ main_district)).length)
        (min_le_right _ _)
    rw [List.length_append, hlen, List.length_singleton]

/-- Witness for C7: fallback mode, the take-first sampler, four districts,
a concrete base forecast of 12 records. -/
theorem comparison_bundle_rounded_witness :
    RoundedBundleClaim none (fun pop k => pop.take k) (fun _ _ => 3000)
      (fun _ => 50) FALLBACK_COLUMNS "Wheat" 2025 3 "Pune"
      ["Pune", "Nashik", "Mumbai", "Solapur"]
      (fallbackForecast (fun _ => 3000) "Pune" 2025) :=
  comparison_bundle_rounded none (fun pop k => pop.take k) (fun _ _ => 3000)
    (fun _ => 50) FALLBACK_COLUMNS "Wheat" 2025 3 "Pune"
    ["Pune", "Nashik", "Mumbai", "Solapur"]
    (fallbackForecast (fun _ => 3000) "Pune" 2025) takeSampleSpec rfl

/-! ## Claim C9: the specific prediction agrees with the forecast loop -/

/-- The specific prediction computed separately in
`show_prediction_dashboard`: the same Series construction with day fixed
to 1 at the selected month, fed to the loaded model. -/
def specific_prediction (predict : List Int → ℚ) (cols : List String)
    (district commodity : String) (year month grade : Int) : ℚ :=
  predict (featureVector cols district commodity year month 1 grade)

/-- C9: in model mode the separately coded specific prediction equals the
price of the 12-month forecast's record for the selected month — both are
produced from identical feature vectors with day fixed to 1. -/
theorem specific_prediction_matches_forecast (predict : List Int → ℚ)
    (rng : Nat → ℚ) (cols : List String) (district commodity : String)
    (year grade month : Int) (h1 : 1 ≤ month) (h2 : month ≤ 12) :
    ∃ r ∈ get_monthly_forecast (some predict) rng cols district commodity
      year grade, (r.month : Int) = month ∧
      r.price = specific_prediction predict cols district commodity year
        month grade := by
  refine ⟨{ month := (month - 1).toNat + 1,
            price := predict (featureVector cols district commodity year
              (((month - 1).toNat : Int) + 1) 1 grade),
            date := (year, (month - 1).toNat + 1, 1),
            district := district }, ?_, ?_, ?_⟩
  · show _ ∈ modelForecast predict cols district commodity year grade
    rw [modelForecast]
    exact List.mem_map.mpr
      ⟨(month - 1).toNat, List.mem_range.mpr (by omega), rfl⟩
  · push_cast
    omega
  · rw [specific_prediction]
    have hm : (((month - 1).toNat : Int) + 1) = month := by omega
    rw [hm]

/-- Witness for C9: a constant model on the fallback schema at month 1. -/
theorem specific_prediction_matches_forecast_witness :
    ∃ r ∈ get_monthly_forecast (some (fun _ => 4200)) (fun _ => 0)
      FALLBACK_COLUMNS "Pune" "Wheat" 2025 3, (r.month : Int) = 1 ∧
      r.price = specific_prediction (fun _ => 4200) FALLBACK_COLUMNS "Pune"
        "Wheat" 2025 1 3 :=
  specific_prediction_matches_forecast (fun _ => 4200) (fun _ => 0)
    FALLBACK_COLUMNS "Pune" "Wheat" 2025 3 1 (by decide) (by decide)

/-! ## Claim C6: the perturbation branch -/

/-- The property claimed of the perturbation branch for a district `d`
other than the main one: the whole series contributed for `d` is its own
forecast shifted by the single drawn offset, which is bounded by the
`random.uniform(-100, 100)` contract. -/
def PerturbationClaim (model : Option (List Int → ℚ))
    (forecastRng : String → Nat → ℚ) (perturbDraw : String → ℚ)
    (cols : List String) (commodity : String) (year grade : Int)
    (main_district : String) (base_forecast : List PredRecord)
    (d : String) : Prop :=
  (district_block model forecastRng perturbDraw cols commodity year grade
      main_district base_forecast d).map (fun r => r.price) =
    (get_monthly_forecast model (forecastRng d) cols d commodity year
      grade).map (fun r => r.price + perturbDraw d) ∧
  -100 ≤ perturbDraw d ∧ perturbDraw d ≤ 100

/-- C6 (amended: model mode only): when the model is loaded and a sampled
alternate district's first-month price equals the base frame's first-month
price, a bounded random perturbation is applied to that alternate's prices;
the degenerate case is handled locally, never surfaced as an error. -/
theorem perturbation_on_equal_first_price (predict : List Int → ℚ)
    (forecastRng : String → Nat → ℚ) (perturbDraw : String → ℚ)
    (cols : List String) (commodity : String) (year grade : Int)
    (main_district : String) (base_forecast : List PredRecord) (d : String)
    (hd : d ≠ main_district)
    (hb : ∀ x, -100 ≤ perturbDraw x ∧ perturbDraw x ≤ 100)
    (heq : firstPrice (get_monthly_forecast (some predict) (forecastRng d)
      cols d commodity year grade) = firstPrice base_forecast) :
    PerturbationClaim (some predict) forecastRng perturbDraw cols commodity
      year grade main_district base_forecast d := by
  refine ⟨?_, (hb d).1, (hb d).2⟩
  rw [district_block, if_neg hd, if_pos ⟨rfl, heq⟩, List.map_map,
    List.map_map]
  rfl

/-- Witness for C6 (amended): a constant model whose forecast for the
alternate district starts at the base frame's first price. -/
theorem perturbation_on_equal_first_price_witness :
    PerturbationClaim (some (fun _ => 4200)) (fun _ _ => 0) (fun _ => 50)
      FALLBACK_COLUMNS "Wheat" 2025 3 "Pune"
      (get_monthly_forecast (some (fun _ => 4200)) (fun _ => 0)
        FALLBACK_COLUMNS "Pune" "Wheat" 2025 3) "Nashik" :=
  perturbation_on_equal_first_price (fun _ => 4200) (fun _ _ => 0)
    (fun _ => 50) FALLBACK_COLUMNS "Wheat" 2025 3 "Pune"
    (get_monthly_forecast (some (fun _ => 4200)) (fun _ => 0)
      FALLBACK_COLUMNS "Pune" "Wheat" 2025 3) "Nashik"
    (by decide) (by intro x; exact ⟨by norm_num, by norm_num⟩) rfl

/-- Counterexample to C6 as stated: in fallback mode (no model) the guard
`if rf_model and ...` skips the perturbation even when the alternate's
first-month price equals the main district's, so the alternate's series
stays unshifted although a nonzero bounded draw (50) was available. -/
theorem perturbation_skipped_without_model :
    firstPrice (get_monthly_forecast none (fun _ => 3000) FALLBACK_COLUMNS
        "Nashik" "Wheat" 2025 3) =
      firstPrice (fallbackForecast (fun _ => 3000) "Pune" 2025) ∧
    (district_block none (fun _ _ => 3000) (fun _ => 50) FALLBACK_COLUMNS
        "Wheat" 2025 3 "Pune" (fallbackForecast (fun _ => 3000) "Pune" 2025)
        "Nashik").map (fun r => r.price) =
      (get_monthly_forecast none (fun _ => 3000) FALLBACK_COLUMNS "Nashik"
        "Wheat" 2025 3).map (fun r => r.price) ∧
    (district_block none (fun _ _ => 3000) (fun _ => 50) FALLBACK_COLUMNS
        "Wheat" 2025 3 "Pune" (fallbackForecast (fun _ => 3000) "Pune" 2025)
        "Nashik").map (fun r => r.price) ≠
      (get_monthly_forecast none (fun _ => 3000) FALLBACK_COLUMNS "Nashik"
        "Wheat" 2025 3).map (fun r => r.price + (fun _ => (50 : ℚ)) "Nashik")
    := by
  refine ⟨rfl, rfl, ?_⟩
  intro h
  have hL : ((district_block none (fun _ _ => 3000) (fun _ => 50)
      FALLBACK_COLUMNS "Wheat" 2025 3 "Pune"
      (fallbackForecast (fun _ => 3000) "Pune" 2025) "Nashik").map
      (fun r => r.price)).headD 0 = 3000 + ((0 : Nat) : ℚ) * 50 := rfl
  have hR : (((get_monthly_forecast none (fun _ => 3000) FALLBACK_COLUMNS
      "Nashik" "Wheat" 2025 3).map
      (fun r => r.price + (fun _ => (50 : ℚ)) "Nashik")).headD 0) =
      3000 + ((0 : Nat) : ℚ) * 50 + 50 := rfl
  rw [h, hR] at hL
  norm_num at hL

/-! ## Claim C10: one offset per alternate, main district only rounded -/

/-- Every row of a district's block carries that district's tag. -/
theorem district_block_district (model : Option (List Int → ℚ))
    (forecastRng : String → Nat → ℚ) (perturbDraw : String → ℚ)
    (cols : List String) (commodity : String) (year grade : Int)
    (main_district : String) (base_forecast : List PredRecord) (d : String) :
    ∀ r ∈ district_block model forecastRng perturbDraw cols commodity year
      grade main_district base_forecast d, r.district = d := by
  rw [district_block]
  by_cases hd : d = main_district
  · rw [if_pos hd]
    intro r hr
    obtain ⟨s, _, hrs⟩ := List.mem_map.mp hr
    rw [← hrs]
  · rw [if_neg hd]
    intro r hr
    obtain ⟨s, _, hrs⟩ := List.mem_map.mp hr
    rw [← hrs]

/-- Adding one constant to every price shifts each position's price by it. -/
theorem getD_map_price_add (c : ℚ) (l : List PredRecord) :
    ∀ i, i < l.length →
      (l.map (fun r => r.price + c)).getD i 0 =
        (l.map (fun r => r.price)).getD i 0 + c := by
  induction l with
  | nil => intro i hi; simp at hi
  | cons a l ih =>
    intro i hi
    cases i with
    | zero => rfl
    | succ n =>
      rw [List.map_cons, List.map_cons, List.getD_cons_succ,
        List.getD_cons_succ]
      exact ih n (by simp at hi; omega)

/-- The property claimed of the comparison frame: when the perturbation
fires for a sampled alternate, one single offset is added uniformly to its
12 prices (so all pairwise month-to-month differences are preserved), and
the main district's rows in the bundle are the supplied base forecast
unchanged apart from the district tag and the final rounding. -/
def FramePreservationClaim (model : Option (List Int → ℚ))
    (sample : List String → Nat → List String)
    (forecastRng : String → Nat → ℚ) (perturbDraw : String → ℚ)
    (cols : List String) (commodity : String) (year grade : Int)
    (main_district : String) (all_districts : List String)
    (base_forecast : List PredRecord) : Prop :=
  (∀ d ∈ sample (all_districts.filter (fun x => x ≠ main_district))
      (min 2 (all_districts.filter (fun x => x ≠ main_district)).length),
    (model.isSome ∧ firstPrice (get_monthly_forecast model (forecastRng d)
        cols d commodity year grade) = firstPrice base_forecast) →
    (district_block model forecastRng perturbDraw cols commodity year grade
        main_district base_forecast d).map (fun r => r.price) =
      (get_monthly_forecast model (forecastRng d) cols d commodity year
        grade).map (fun r => r.price + perturbDraw d) ∧
    ∀ i j, i < 12 → j < 12 →
      ((district_block model forecastRng perturbDraw cols commodity year
          grade main_district base_forecast d).map
          (fun r => r.price)).getD i 0 -
        ((district_block model forecastRng perturbDraw cols commodity year
          grade main_district base_forecast d).map
          (fun r => r.price)).getD j 0 =
      ((get_monthly_forecast model (forecastRng d) cols d commodity year
          grade).map (fun r => r.price)).getD i 0 -
        ((get_monthly_forecast model (forecastRng d) cols d commodity year
          grade).map (fun r => r.price)).getD j 0) ∧
  (get_comparison_data model sample forecastRng perturbDraw cols commodity
      year grade main_district all_districts base_forecast).filter
      (fun r => r.district = main_district) =
    base_forecast.map (fun r =>
      { r with price := ((roundHalfEven r.price : ℤ) : ℚ),
               district := main_district })

/-- C10: a perturbed alternate's series is shifted by one uniform offset
(preserving all its month-to-month differences), and the main district's
rows in the bundle are taken from the supplied base forecast unchanged,
modified only by the final rounding. -/
theorem comparison_frame_preservation (model : Option (List Int → ℚ))
    (sample : List String → Nat → List String)
    (forecastRng : String → Nat → ℚ) (perturbDraw : String → ℚ)
    (cols : List String) (commodity : String) (year grade : Int)
    (main_district : String) (all_districts : List String)
    (base_forecast : List PredRecord) (hs : SampleSpec sample) :
    FramePreservationClaim model sample forecastRng perturbDraw cols
      commodity year grade main_district all_districts base_forecast := by
  obtain ⟨hlen, hsub⟩ :=
    hs (all_districts.filter (fun x => x ≠ main_district))
      (min 2 (all_districts.filter (fun x => x ≠ main_district)).length)
      (min_le_right _ _)
  have hmem : ∀ d ∈ sample (all_districts.filter (fun x => x ≠ main_district))
      (min 2 (all_districts.filter (fun x => x ≠ main_district)).length),
      d ≠ main_district := by
    intro d hd
    have := hsub.subset hd
    simp only [List.mem_filter, decide_eq_true_eq] at this
    exact this.2
  constructor
  · intro d hd hfire
    have hdm : d ≠ main_district := hmem d hd
    have h1 : (district_block model forecastRng perturbDraw cols commodity
        year grade main_district base_forecast d).map (fun r => r.price) =
        (get_monthly_forecast model (forecastRng d) cols d commodity year
          grade).map (fun r => r.price + perturbDraw d) := by
      rw [district_block, if_neg hdm, if_pos hfire, List.map_map,
        List.map_map]
      rfl
    refine ⟨h1, ?_⟩
    intro i j hi hj
    have hfl : (get_monthly_forecast model (forecastRng d) cols d commodity
        year grade).length = 12 :=
      get_monthly_forecast_length model (forecastRng d) cols d commodity
        year grade
    rw [h1,
      getD_map_price_add (perturbDraw d) _ i (by rw [hfl]; exact hi),
      getD_map_price_add (perturbDraw d) _ j (by rw [hfl]; exact hj)]
    ring
  · rw [get_comparison_data, comparison_unrounded, comp_districts,
      List.map_append, List.flatten_append, List.map_singleton,
      List.flatten_singleton, List.map_append, List.filter_append]
    have hA : (((sample (all_districts.filter (fun x => x ≠ main_district))
        (min 2 (all_districts.filter
          (fun x => x ≠ main_district)).length)).map
        (district_block model forecastRng perturbDraw cols commodity year
          grade main_district base_forecast)).flatten.map
        (fun r => { r with
          price := ((roundHalfEven r.price : ℤ) : ℚ) })).filter
        (fun r => r.district = main_district) = [] := by
      rw [List.filter_eq_nil_iff]
      intro r hr
      obtain ⟨r2, hr2, hrr⟩ := List.mem_map.mp hr
      obtain ⟨l, hl, hr2l⟩ := List.mem_flatten.mp hr2
      obtain ⟨d, hd, hld⟩ := List.mem_map.mp hl
      have : r2.district = d := by
        rw [← hld] at hr2l
        exact district_block_district model forecastRng perturbDraw cols
          commodity year grade main_district base_forecast d r2 hr2l
      rw [← hrr]
      simp only [decide_eq_true_eq]
      intro hcontra
      exact hmem d hd (by rw [← this, hcontra])
    rw [hA, List.nil_append]
    have hB : (district_block model forecastRng perturbDraw cols commodity
        year grade main_district base_forecast main_district).map
        (fun r => { r with
          price := ((roundHalfEven r.price : ℤ) : ℚ) }) =
        base_forecast.map (fun r =>
          { r with price := ((roundHalfEven r.price : ℤ) : ℚ),
                   district := main_district }) := by
      rw [district_block, if_pos rfl, List.map_map]
      rfl
    rw [List.filter_eq_self.mpr, hB]
    intro r hr
    obtain ⟨r2, hr2, hrr⟩ := List.mem_map.mp hr
    have : r2.district = main_district :=
      district_block_district model forecastRng perturbDraw cols commodity
        year grade main_district base_forecast main_district r2 hr2
    rw [← hrr]
    simp only [decide_eq_true_eq]
    exact this

/-- Witness for C10: a constant model, the take-first sampler, two
districts. -/
theorem comparison_frame_preservation_witness :
    FramePreservationClaim (some (fun _ => 4200)) (fun pop k => pop.take k)
      (fun _ _ => 0) (fun _ => 50) FALLBACK_COLUMNS "Wheat" 2025 3 "Pune"
      ["Pune", "Nashik"]
      (get_monthly_forecast (some (fun _ => 4200)) (fun _ => 0)
        FALLBACK_COLUMNS "Pune" "Wheat" 2025 3) :=
  comparison_frame_preservation (some (fun _ => 4200))
    (fun pop k => pop.take k) (fun _ _ => 0) (fun _ => 50) FALLBACK_COLUMNS
    "Wheat" 2025 3 "Pune" ["Pune", "Nashik"]
    (get_monthly_forecast (some (fun _ => 4200)) (fun _ => 0)
      FALLBACK_COLUMNS "Pune" "Wheat" 2025 3) takeSampleSpec
